import Mathlib

/-!
Verification of the resilience and escalation layer of the
Business-Product-Launch-Analyzer repository.

The development shallowly embeds the retry, backoff, timeout and
strategy-escalation logic of src/agents.py, src/crew.py, src/config.py and
src/tasks.py.  Python strings are Lean strings (Python `str` is a character
sequence, so the `in` operator and `startswith` are embedded as character-list
infix/prefix tests); Python `int` truncation of a positive float is `Nat.floor`
over `ℚ`; the `random.uniform(0.1, 0.3)` draw is an explicit rational
parameter constrained to that interval.
-/

/-! ## String helpers: the Python `in` operator on character sequences -/

/-- Embedding of the Python expression `needle in hay` for strings:
true exactly when the character list `needle` occurs contiguously in `hay`. -/
def containsSub (needle : List Char) : List Char → Bool
  | [] => needle.isEmpty
  | c :: t => needle.isPrefixOf (c :: t) || containsSub needle t

/-- Embedding of Python str.lower(): lowercase each character.  (Core's
String.toLower is the same map, but it is defined by well-founded recursion
on byte positions and so does not reduce in the kernel; this characterwise
form is used so concrete classifications can be settled by decide.) -/
def strLower (s : String) : String := ⟨s.toList.map Char.toLower⟩

/-- Python `needle in hay` on strings. -/
def substrIn (needle hay : String) : Bool :=
  containsSub needle.toList hay.toList

/-! ## src/agents.py: error classifier -/

/-- Indicator table of RobustGeminiLLM._is_retryable_error in src/agents.py
(lines 85-90), copied verbatim. -/
def retryable_indicators : List String :=
  ["503", "overloaded", "service unavailable", "timeout",
   "quota", "rate limit", "429", "too many requests",
   "resource exhausted", "limit exceeded", "rate_limit_exceeded",
   "temporarily unavailable", "server error", "internal error"]

/-- Embedding of RobustGeminiLLM._is_retryable_error (src/agents.py lines
82-91): lowercase the error text and test each indicator with Python `in`.
A message on which this returns `false` is non-retryable, i.e. the spec's
`Fatal` kind. -/
def is_retryable_error (errorStr : String) : Bool :=
  retryable_indicators.any (fun ind => substrIn ind (strLower errorStr))

/-- Embedding of the overload test used at src/agents.py lines 122 and 159
and src/crew.py line 134: `"overloaded" in error_str or "503" in error_str`
on the lowercased message.  This is the spec's `Overloaded` classification. -/
def overloaded_check (errorStr : String) : Bool :=
  substrIn ("overloaded") (strLower errorStr) || substrIn ("503") (strLower errorStr)

/-- Embedding of the quota/rate-limit test at src/crew.py line 144:
`any(indicator in error_str for indicator in ["quota", "rate limit", "429"])`
on the lowercased message.  This is the spec's `RateLimited`/`QuotaExhausted`
classification. -/
def quota_check (errorStr : String) : Bool :=
  [("quota" : String), "rate limit", "429"].any
    (fun ind => substrIn ind (strLower errorStr))

/-! ## src/agents.py and src/config.py: backoff policy -/

/-- Embedding of RobustGeminiLLM._calculate_backoff_delay (src/agents.py lines
74-80):

  delay = self.base_delay * (2 ** attempt)
  jitter = random.uniform(0.1, 0.3) * delay
  return int(delay + jitter)

The uniform draw is the explicit parameter `j` (intended range 1/10 ≤ j ≤
3/10); `delay + jitter` is positive, so Python `int` truncation is `Nat.floor`. -/
def calculate_backoff_delay (base_delay attempt : Nat) (j : ℚ) : Nat :=
  ⌊((base_delay : ℚ) * 2 ^ attempt) * (1 + j)⌋₊

/-- Embedding of the delay actually applied on a retryable failure inside
RobustGeminiLLM._generate (src/agents.py lines 118-126) and likewise inside
invoke (lines 156-163): compute the backoff delay and, when the message tests
as overloaded, floor it at 60 seconds (`delay = max(delay, 60)`). -/
def effective_retry_delay (errorStr : String) (base_delay attempt : Nat)
    (j : ℚ) : Nat :=
  if overloaded_check errorStr then
    max (calculate_backoff_delay base_delay attempt j) 60
  else
    calculate_backoff_delay base_delay attempt j

/-- Constant BASE_RETRY_DELAY of src/config.py. -/
def Config.BASE_RETRY_DELAY : Nat := 60

/-- Constant EXPONENTIAL_BACKOFF of src/config.py. -/
def Config.EXPONENTIAL_BACKOFF : Bool := true

/-- Embedding of Config.get_retry_delay (src/config.py lines 43-49). -/
def Config.get_retry_delay (attempt : Nat) : Nat :=
  if Config.EXPONENTIAL_BACKOFF then Config.BASE_RETRY_DELAY * 2 ^ attempt
  else Config.BASE_RETRY_DELAY

/-! ## Theorems about the backoff policy (claims C7, C8, C3) -/

/-- C7: the backoff delay is the base formula `base_delay * 2 ^ attempt`
scaled by the jitter factor `1 + j` (then truncated to an integer), and for
every jitter draw in the uniform range, the jittered delay strictly exceeds
the unjittered `base_delay * 2 ^ attempt` (so it is in particular never less
than it).  The strict increase uses `10 ≤ base_delay`, which holds for the
only configuration the source constructs (base_delay = 10, src/agents.py
lines 56 and 199). -/
theorem c7_jitter_strictly_increases (base_delay attempt : Nat) (j : ℚ)
    (hb : 10 ≤ base_delay) (hj1 : 1/10 ≤ j) (hj2 : j ≤ 3/10) :
    calculate_backoff_delay base_delay attempt j
      = ⌊((base_delay : ℚ) * 2 ^ attempt) * (1 + j)⌋₊
    ∧ base_delay * 2 ^ attempt < calculate_backoff_delay base_delay attempt j := by
  refine ⟨rfl, ?_⟩
  have hpow : 1 ≤ 2 ^ attempt := Nat.one_le_two_pow
  have hd10 : 10 ≤ base_delay * 2 ^ attempt := by nlinarith
  have hd10q : (10 : ℚ) ≤ (base_delay : ℚ) * 2 ^ attempt := by
    calc (10 : ℚ) ≤ ((base_delay * 2 ^ attempt : Nat) : ℚ) := by exact_mod_cast hd10
    _ = (base_delay : ℚ) * 2 ^ attempt := by push_cast; ring
  have hjd : (1 : ℚ) ≤ ((base_delay : ℚ) * 2 ^ attempt) * j := by
    have := mul_le_mul hd10q hj1 (by norm_num) (by linarith)
    calc (1 : ℚ) = 10 * (1/10) := by norm_num
    _ ≤ ((base_delay : ℚ) * 2 ^ attempt) * j := this
  have key : ((base_delay * 2 ^ attempt + 1 : Nat) : ℚ)
      ≤ ((base_delay : ℚ) * 2 ^ attempt) * (1 + j) := by
    push_cast
    nlinarith
  exact Nat.lt_of_succ_le (Nat.le_floor key)

/-- Closed witness for the C7 theorem at the source configuration
base_delay = 10, attempt = 0, jitter draw j = 1/5. -/
theorem c7_jitter_strictly_increases_witness :
    10 * 2 ^ 0 < calculate_backoff_delay 10 0 (1/5) :=
  (c7_jitter_strictly_increases 10 0 (1/5) (by norm_num) (by norm_num)
    (by norm_num)).2

/-- C8: when the failure message is classified overloaded, the delay applied
by the retry loop of src/agents.py is at least 60 seconds regardless of the
formula's value; for every other message the formula's value is used
unmodified (no floor). -/
theorem c8_overloaded_floor (errorStr : String) (base_delay attempt : Nat)
    (j : ℚ) :
    (overloaded_check errorStr = true →
      60 ≤ effective_retry_delay errorStr base_delay attempt j)
    ∧ (overloaded_check errorStr = false →
      effective_retry_delay errorStr base_delay attempt j
        = calculate_backoff_delay base_delay attempt j) := by
  constructor <;> intro h <;> simp [effective_retry_delay, h]

/-- Closed witness for the C8 theorem: an overloaded message gets the 60
second floor, a non-matching message gets the raw formula value. -/
theorem c8_overloaded_floor_witness :
    60 ≤ effective_retry_delay ("503 The model is overloaded") 10 0 (1/5)
    ∧ effective_retry_delay ("invalid argument") 10 0 (1/5)
      = calculate_backoff_delay 10 0 (1/5) :=
  ⟨(c8_overloaded_floor ("503 The model is overloaded") 10 0 (1/5)).1
      (by decide),
   (c8_overloaded_floor ("invalid argument") 10 0 (1/5)).2 (by decide)⟩

/-- C3 helper: the raw backoff formula without the overload floor grows
strictly with the attempt index, for every pair of jitter draws in the
uniform range, as soon as the base delay is at least 2. -/
theorem calculate_backoff_delay_strict_mono (base_delay attempt : Nat)
    (j1 j2 : ℚ) (hb : 2 ≤ base_delay)
    (hj1 : 1/10 ≤ j1) (hj2 : 1/10 ≤ j2) (hj2' : j2 ≤ 3/10) :
    calculate_backoff_delay base_delay attempt j2
      < calculate_backoff_delay base_delay (attempt + 1) j1 := by
  have hpow : 1 ≤ 2 ^ attempt := Nat.one_le_two_pow
  have hd2 : 2 ≤ base_delay * 2 ^ attempt := by nlinarith
  have hd2q : (2 : ℚ) ≤ (base_delay : ℚ) * 2 ^ attempt := by
    calc (2 : ℚ) ≤ ((base_delay * 2 ^ attempt : Nat) : ℚ) := by exact_mod_cast hd2
    _ = (base_delay : ℚ) * 2 ^ attempt := by push_cast; ring
  have hnn : (0 : ℚ) ≤ ((base_delay : ℚ) * 2 ^ attempt) * (1 + j2) := by
    nlinarith
  have key : ((base_delay : ℚ) * 2 ^ attempt) * (1 + j2) + 1
      ≤ ((base_delay : ℚ) * 2 ^ (attempt + 1)) * (1 + j1) := by
    have hexp : ((base_delay : ℚ) * 2 ^ (attempt + 1))
        = 2 * ((base_delay : ℚ) * 2 ^ attempt) := by ring
    rw [hexp]
    nlinarith
  calc calculate_backoff_delay base_delay attempt j2
      < ⌊((base_delay : ℚ) * 2 ^ attempt) * (1 + j2) + 1⌋₊ := by
        rw [Nat.floor_add_one hnn]
        exact Nat.lt_succ_self _
    _ ≤ calculate_backoff_delay base_delay (attempt + 1) j1 :=
        Nat.floor_le_floor key

/-- C3 counterexample: with the source configuration base_delay = 10, the
delay the retry loop applies to an overloaded failure is exactly 60 at both
attempt 0 and attempt 1 (the 60 second floor dominates the formula, whose
jittered values are at most 13 and 26 there), so the delay is not strictly
increasing in the attempt index for the Overloaded kind.  Shown at the jitter
draw 1/5; the formula value is below 60 for every draw in [1/10, 3/10], so
the equality holds for every draw and hence in expectation. -/
theorem c3_overloaded_not_strictly_mono :
    effective_retry_delay ("503 overloaded") 10 1 (1/5) = 60
    ∧ effective_retry_delay ("503 overloaded") 10 0 (1/5) = 60
    ∧ effective_retry_delay ("503 overloaded") 10 1 (3/10) = 60
    ∧ effective_retry_delay ("503 overloaded") 10 0 (1/10) = 60
    ∧ ¬ (effective_retry_delay ("503 overloaded") 10 0 (1/5)
          < effective_retry_delay ("503 overloaded") 10 1 (1/5)) := by
  have h1 : effective_retry_delay ("503 overloaded") 10 1 (1/5) = 60 := by
    simp only [effective_retry_delay, calculate_backoff_delay]
    rw [if_pos (by decide)]
    norm_num
  have h2 : effective_retry_delay ("503 overloaded") 10 0 (1/5) = 60 := by
    simp only [effective_retry_delay, calculate_backoff_delay]
    rw [if_pos (by decide)]
    norm_num
  have h3 : effective_retry_delay ("503 overloaded") 10 1 (3/10) = 60 := by
    simp only [effective_retry_delay, calculate_backoff_delay]
    rw [if_pos (by decide)]
    norm_num
  have h4 : effective_retry_delay ("503 overloaded") 10 0 (1/10) = 60 := by
    simp only [effective_retry_delay, calculate_backoff_delay]
    rw [if_pos (by decide)]
    norm_num
  exact ⟨h1, h2, h3, h4, by rw [h1, h2]; omega⟩

/-- C3 (amended): for failure kinds that do not get the Overloaded floor the
delay grows strictly with the attempt index for every pair of jitter draws
(hence in expectation); for Overloaded failures the applied delay is still
monotone non-decreasing, but not strictly (see the counterexample). -/
theorem c3_delay_growth (errorStr : String) (base_delay attempt : Nat)
    (j1 j2 : ℚ) (hb : 2 ≤ base_delay) (hj1 : 1/10 ≤ j1) (hj1' : j1 ≤ 3/10)
    (hj2 : 1/10 ≤ j2) (hj2' : j2 ≤ 3/10) :
    (overloaded_check errorStr = false →
      effective_retry_delay errorStr base_delay attempt j2
        < effective_retry_delay errorStr base_delay (attempt + 1) j1)
    ∧ effective_retry_delay errorStr base_delay attempt j2
        ≤ effective_retry_delay errorStr base_delay (attempt + 1) j1 := by
  have hmono := calculate_backoff_delay_strict_mono base_delay attempt j1 j2
    hb hj1 hj2 hj2'
  constructor
  · intro h
    simp only [effective_retry_delay, h, if_false, Bool.false_eq_true]
    exact hmono
  · by_cases h : overloaded_check errorStr
    · simp only [effective_retry_delay, h, if_true]
      omega
    · simp only [effective_retry_delay, h, if_false, Bool.false_eq_true]
      omega

/-- Closed witness for the amended C3 theorem: a plain timeout message (no
overload floor) with base 10 gets a strictly larger delay at attempt 1 than
at attempt 0, and an overloaded message gets at least as large a delay. -/
theorem c3_delay_growth_witness :
    effective_retry_delay ("connection timeout") 10 0 (3/10)
      < effective_retry_delay ("connection timeout") 10 1 (1/10)
    ∧ effective_retry_delay ("503 overloaded") 10 0 (3/10)
      ≤ effective_retry_delay ("503 overloaded") 10 1 (1/10) :=
  ⟨(c3_delay_growth ("connection timeout") 10 0 (1/10) (3/10) (by norm_num)
      (by norm_num) (by norm_num) (by norm_num) (by norm_num)).1 (by decide),
   (c3_delay_growth ("503 overloaded") 10 0 (1/10) (3/10) (by norm_num)
      (by norm_num) (by norm_num) (by norm_num) (by norm_num)).2⟩

/-! ## src/agents.py: the retry loop of RobustGeminiLLM._generate -/

/-- Outcome of one underlying invocation of the remote backend
(the call to super()._generate at src/agents.py line 107). -/
inductive GenOutcome (α : Type) where
  | ok (v : α)
  | err (msg : String)

/-- Embedding of the retry loop of RobustGeminiLLM._generate (src/agents.py
lines 93-138), parameterised by the behaviour of the remote backend: the
underlying call made on loop iteration `attempt` yields `responses attempt`.

  for attempt in range(self.max_retries + 1):
      try: return super()._generate(...)
      except Exception as e:
          if self._is_retryable_error(e) and attempt < self.max_retries:
              sleep(delay); continue
          else: break
  raise Exception(f"Failed after {max_retries + 1} attempts. Last error: ...")

Returns the list of loop iterations that performed an underlying invocation
(the attempt log) together with the final outcome; the raise is an
Except.error carrying the message built at line 136. -/
def generate_go {α : Type} (responses : Nat → GenOutcome α)
    (max_retries attempt : Nat) : List Nat × Except String α :=
  match responses attempt with
  | .ok v => ([attempt], .ok v)
  | .err m =>
    if is_retryable_error m then
      if h : attempt < max_retries then
        let rest := generate_go responses max_retries (attempt + 1)
        (attempt :: rest.1, rest.2)
      else
        ([attempt],
         .error ("Failed after " ++ toString (max_retries + 1)
           ++ " attempts. Last error: " ++ m))
    else
      ([attempt],
       .error ("Failed after " ++ toString (max_retries + 1)
         ++ " attempts. Last error: " ++ m))
termination_by max_retries - attempt
decreasing_by omega

/-- The whole of RobustGeminiLLM._generate: the loop starts at attempt 0. -/
def generate {α : Type} (responses : Nat → GenOutcome α)
    (max_retries : Nat) : List Nat × Except String α :=
  generate_go responses max_retries 0

/-- The attempt log of the retry loop never exceeds the remaining iteration
budget: starting from `attempt`, at most `max_retries + 1 - attempt`
underlying invocations happen (and at least one). -/
theorem generate_go_length_le {α : Type} (responses : Nat → GenOutcome α)
    (max_retries : Nat) :
    ∀ n attempt, max_retries - attempt ≤ n →
      (generate_go responses max_retries attempt).1.length ≤ n + 1 := by
  intro n
  induction n with
  | zero =>
    intro attempt h
    rw [generate_go]
    match hr : responses attempt with
    | .ok v => simp
    | .err m =>
      simp only
      split
      · split
        · omega
        · simp
      · simp
  | succ n ih =>
    intro attempt h
    rw [generate_go]
    match hr : responses attempt with
    | .ok v => simp
    | .err m =>
      simp only
      split
      · split
        · simp only [List.length_cons]
          have := ih (attempt + 1) (by omega)
          omega
        · simp
      · simp

/-- When every underlying invocation fails with a retryable message, the
retry loop starting at `attempt ≤ max_retries` invokes the backend on every
remaining iteration and ends with the terminal failure built from the last
error. -/
theorem generate_go_all_retryable {α : Type} (responses : Nat → GenOutcome α)
    (max_retries : Nat) (msgs : Nat → String)
    (hfail : ∀ i, responses i = .err (msgs i))
    (hret : ∀ i, is_retryable_error (msgs i) = true) :
    ∀ n attempt, attempt + n = max_retries →
      generate_go responses max_retries attempt
        = (List.range' attempt (n + 1),
           .error ("Failed after " ++ toString (max_retries + 1)
             ++ " attempts. Last error: " ++ msgs max_retries)) := by
  intro n
  induction n with
  | zero =>
    intro attempt h
    rw [generate_go]
    match hr : responses attempt with
    | .ok v =>
      rw [hfail attempt] at hr
      cases hr
    | .err m =>
      have hm : m = msgs attempt := by
        rw [hfail attempt] at hr
        injection hr with h'
        exact h'.symm
      subst hm
      dsimp only
      rw [hret attempt, if_pos rfl, dif_neg (by omega)]
      have ha : attempt = max_retries := by omega
      subst ha
      simp
  | succ n ih =>
    intro attempt h
    rw [generate_go]
    match hr : responses attempt with
    | .ok v =>
      rw [hfail attempt] at hr
      cases hr
    | .err m =>
      have hm : m = msgs attempt := by
        rw [hfail attempt] at hr
        injection hr with h'
        exact h'.symm
      subst hm
      dsimp only
      rw [hret attempt, if_pos rfl, dif_pos (by omega)]
      have hrec := ih (attempt + 1) (by omega)
      simp only [hrec, List.range'_succ]

/-- C5: a failure whose message matches none of the classifier's indicator
substrings is classified non-retryable (the spec's Fatal), and when the first
underlying invocation fails with such a message the retry loop of
RobustGeminiLLM._generate performs exactly one underlying invocation,
whatever max_retries is configured, and raises the failure to the caller. -/
theorem c5_fatal_never_retried {α : Type} (max_retries : Nat)
    (responses : Nat → GenOutcome α) (m : String)
    (h0 : responses 0 = .err m)
    (hnomatch : ∀ ind ∈ retryable_indicators,
      substrIn ind (strLower m) = false) :
    is_retryable_error m = false
    ∧ generate responses max_retries
        = ([0], .error ("Failed after " ++ toString (max_retries + 1)
            ++ " attempts. Last error: " ++ m)) := by
  have hfatal : is_retryable_error m = false := by
    rw [is_retryable_error, List.any_eq_false]
    intro ind hind
    simp [hnomatch ind hind]
  refine ⟨hfatal, ?_⟩
  rw [generate, generate_go]
  match hr : responses 0 with
  | .ok v =>
    rw [h0] at hr
    cases hr
  | .err m' =>
    have hm : m' = m := by
      rw [h0] at hr
      injection hr with h'
      exact h'.symm
    subst hm
    dsimp only
    rw [hfatal, if_neg (by simp)]

/-- Closed witness for the C5 theorem: a message matching no indicator is
fatal and gets a single invocation even with max_retries = 5. -/
theorem c5_fatal_never_retried_witness :
    is_retryable_error ("invalid api key") = false
    ∧ generate (fun _ => GenOutcome.err (α := Nat) ("invalid api key")) 5
        = ([0], .error ("Failed after " ++ toString 6
            ++ " attempts. Last error: " ++ "invalid api key")) :=
  c5_fatal_never_retried 5 _ ("invalid api key") rfl (by decide)

/-- C6: the retry loop with configured maximum max_retries performs at most
max_retries + 1 underlying invocations for every backend behaviour; for a
backend that always fails with retryable messages it performs exactly
max_retries + 1 invocations, its attempt log is 0, 1, ..., max_retries
(strictly increasing, never exceeding the configured maximum), and the
outcome is the terminal failure built from the last error. -/
theorem c6_attempt_bound {α : Type} (max_retries : Nat)
    (responses : Nat → GenOutcome α) (msgs : Nat → String)
    (hfail : ∀ i, responses i = .err (msgs i))
    (hret : ∀ i, is_retryable_error (msgs i) = true) :
    (∀ rs : Nat → GenOutcome α,
      (generate rs max_retries).1.length ≤ max_retries + 1)
    ∧ (generate responses max_retries).1 = List.range (max_retries + 1)
    ∧ (generate responses max_retries).1.Pairwise (· < ·)
    ∧ (generate responses max_retries).2
        = .error ("Failed after " ++ toString (max_retries + 1)
            ++ " attempts. Last error: " ++ msgs max_retries) := by
  have hall := generate_go_all_retryable responses max_retries msgs hfail hret
    max_retries 0 (by omega)
  have hrange : List.range' 0 (max_retries + 1) = List.range (max_retries + 1) :=
    (List.range_eq_range' _).symm
  refine ⟨fun rs => generate_go_length_le rs max_retries max_retries 0 (by omega),
    ?_, ?_, ?_⟩
  · rw [generate, hall, hrange]
  · rw [generate, hall, hrange]
    exact List.pairwise_lt_range _
  · rw [generate, hall]

/-- Closed witness for the C6 theorem: a backend that always answers with a
503-overloaded failure and max_retries = 2 yields the attempt log 0, 1, 2 and
the terminal failure. -/
theorem c6_attempt_bound_witness :
    (generate (fun _ => GenOutcome.err (α := Nat) ("503 overloaded")) 2).1
      = List.range 3
    ∧ (generate (fun _ => GenOutcome.err (α := Nat) ("503 overloaded")) 2).2
      = .error ("Failed after " ++ toString 3
          ++ " attempts. Last error: " ++ "503 overloaded") :=
  ⟨(c6_attempt_bound 2 _ (fun _ => "503 overloaded") (fun _ => rfl)
      (fun _ => (by decide : is_retryable_error ("503 overloaded") = true))).2.1,
   (c6_attempt_bound 2 _ (fun _ => "503 overloaded") (fun _ => rfl)
      (fun _ => (by decide : is_retryable_error ("503 overloaded") = true))).2.2.2⟩

/-! ## Bounded execution: src/crew.py execute_with_timeout and
src/agents.py timeout_handler -/

/-- Outcome a bounded execution reports to its caller. -/
inductive ExecOutcome where
  | completed
  | timedOutError
deriving DecidableEq

/-- Timing model of AdaptiveCrewHandler.execute_with_timeout (src/crew.py
lines 68-87).  The worker runs `run_crew`, which takes `workDuration` seconds
of wall-clock time.  Inside `with ThreadPoolExecutor(max_workers=1)`,
`future.result(timeout=timeout_seconds)` either returns the worker's result
(when `workDuration ≤ deadline`) or raises FuturesTimeoutError at the
deadline, which the except clause turns into `raise TimeoutError(...)`.
Either way, control then leaves the `with` block, and
`ThreadPoolExecutor.__exit__` calls `shutdown(wait=True)`, which joins the
(non-daemon) worker thread still executing `crew.kickoff()`.  The caller
therefore regains control only when the worker finishes, at wall-clock time
`workDuration` — even in the timeout case.  The pair returned is (outcome
visible to the caller, wall-clock time at which control returns). -/
def execute_with_timeout (workDuration deadline : Nat) : ExecOutcome × Nat :=
  if workDuration ≤ deadline then (.completed, workDuration)
  else (.timedOutError, workDuration)

/-- Timing model of the timeout_handler decorator (src/agents.py lines
21-49): the work runs on a daemon thread, `thread.join(timeout)` returns at
`min workDuration timeout`, and on expiry a TimeoutError is raised
immediately while the daemon worker is abandoned.  This wrapper really does
return control no later than the deadline. -/
def timeout_handler_run (workDuration timeout : Nat) : ExecOutcome × Nat :=
  if workDuration ≤ timeout then (.completed, workDuration)
  else (.timedOutError, timeout)

/-- C2 (code bug): for a crew run taking 700 seconds under a 600 second
deadline, execute_with_timeout does report a timeout failure, but control
returns to the caller only at wall-clock 700 — past the deadline — because
leaving the `with ThreadPoolExecutor` block joins the abandoned worker.  The
decorator timeout_handler, by contrast, returns control exactly at the
deadline on the same input. -/
theorem c2_executor_blocks_past_deadline :
    (execute_with_timeout 700 600).1 = ExecOutcome.timedOutError
    ∧ (execute_with_timeout 700 600).2 = 700
    ∧ 600 < (execute_with_timeout 700 600).2
    ∧ (timeout_handler_run 700 600).1 = ExecOutcome.timedOutError
    ∧ (timeout_handler_run 700 600).2 = 600 := by
  decide

/-! ## src/crew.py: adaptive strategy escalation -/

/-- A Python value as seen by main in src/crew.py: either a string or some
other object (for example a CrewOutput).  Needed because
create_crewai_setup signals failure in-band with strings. -/
inductive PyVal where
  | pyStr (s : String)
  | pyOther
deriving DecidableEq

/-- Outcome of one whole-strategy attempt, i.e. of
handler.execute_with_timeout(crew, strategy['timeout']) at src/crew.py line
115: a crew result, a TimeoutError, or some other exception with a message. -/
inductive StratOutcome where
  | success (v : PyVal)
  | timeout
  | exc (msg : String)
deriving DecidableEq

/-- A strategy entry of AdaptiveCrewHandler.__init__ (src/crew.py lines
24-28). -/
structure Strategy where
  name : String
  timeoutSec : Nat
  taskSet : String
deriving DecidableEq

/-- The strategy ladder of AdaptiveCrewHandler.__init__, copied from
src/crew.py lines 24-28. -/
def strategies : List Strategy :=
  [⟨"Full Analysis", 600, "full"⟩,
   ⟨"Quick Analysis", 300, "quick"⟩,
   ⟨"Emergency Analysis", 120, "emergency"⟩]

/-- Observable events of one run of create_crewai_setup:
a strategy attempt (which strategy ran on which loop iteration), a
time.sleep of the given number of seconds, and a call to
handler.next_strategy(). -/
inductive Event where
  | ran (strategyName : String) (attempt : Nat)
  | waited (seconds : Nat)
  | advanced
deriving DecidableEq

/-- Embedding of the `for attempt in range(max_attempts)` loop of
create_crewai_setup (src/crew.py lines 89-163), parameterised by the
behaviour of one whole-strategy attempt: running strategy index `idx` on
loop iteration `attempt` yields `behavior idx attempt`.  `fuel` counts the
remaining loop iterations (initially maxAttempts, so the loop body runs with
attempt = 0, 1, ..., maxAttempts - 1); `idx` is the mutable
handler.current_strategy.  Returns the value create_crewai_setup returns
together with the trace of observable events.  Branches, in source order:
strategy lookup (lines 100-102); success (line 119); TimeoutError (lines
121-128: advance, no wait); overloaded (lines 134-142: sleep
(attempt+1)*60, same strategy); quota/rate-limit (lines 144-152: sleep
(attempt+1)*90, same strategy); any other error (lines 154-161: advance, no
wait); loop exhausted (line 163). -/
def setupGo (behavior : Nat → Nat → StratOutcome) (maxAttempts : Nat) :
    Nat → Nat → Nat → PyVal × List Event
  | 0, _, _ =>
    (.pyStr ("❌ Analysis could not be completed after all attempts."), [])
  | fuel + 1, idx, attempt =>
    match strategies.get? idx with
    | none =>
      (.pyStr ("❌ All strategies exhausted. The API service appears to be unavailable."),
       [])
    | some strat =>
      match behavior idx attempt with
      | .success v => (v, [.ran strat.name attempt])
      | .timeout =>
        if attempt < maxAttempts - 1 then
          let rest := setupGo behavior maxAttempts fuel (idx + 1) (attempt + 1)
          (rest.1, .ran strat.name attempt :: .advanced :: rest.2)
        else
          (.pyStr ("❌ All strategies timed out. The service may be overloaded. Please try again later."),
           [.ran strat.name attempt])
      | .exc m =>
        if overloaded_check m then
          if attempt < maxAttempts - 1 then
            let rest := setupGo behavior maxAttempts fuel idx (attempt + 1)
            (rest.1,
             .ran strat.name attempt :: .waited ((attempt + 1) * 60) :: rest.2)
          else
            (.pyStr ("❌ Service is overloaded and all retry attempts failed. Please try again in 10-15 minutes."),
             [.ran strat.name attempt])
        else if quota_check m then
          if attempt < maxAttempts - 1 then
            let rest := setupGo behavior maxAttempts fuel idx (attempt + 1)
            (rest.1,
             .ran strat.name attempt :: .waited ((attempt + 1) * 90) :: rest.2)
          else
            (.pyStr ("❌ API quota exhausted. Please try again later when your quota refreshes."),
             [.ran strat.name attempt])
        else
          if attempt < maxAttempts - 1 then
            let rest := setupGo behavior maxAttempts fuel (idx + 1) (attempt + 1)
            (rest.1, .ran strat.name attempt :: .advanced :: rest.2)
          else
            (.pyStr ("❌ Analysis failed with error: " ++ m),
             [.ran strat.name attempt])

/-- Embedding of create_crewai_setup (src/crew.py lines 89-163): run the
loop from iteration 0 with the handler starting at strategy index 0. -/
def create_crewai_setup (behavior : Nat → Nat → StratOutcome)
    (maxAttempts : Nat) : PyVal × List Event :=
  setupGo behavior maxAttempts maxAttempts 0 0

/-- C9: with the 3-entry ladder and a pipeline that times out under every
strategy, create_crewai_setup tries the strategies in ladder order — Full,
Quick, Emergency — exactly once each (advancing between them, with no extra
wait), and ends exhausted with the terminal all-strategies-timed-out
failure. -/
theorem c9_ladder_order :
    create_crewai_setup (fun _ _ => .timeout) 3
      = (.pyStr ("❌ All strategies timed out. The service may be overloaded. Please try again later."),
         [.ran ("Full Analysis") 0, .advanced,
          .ran ("Quick Analysis") 1, .advanced,
          .ran ("Emergency Analysis") 2]) := by
  decide

/-- C1 counterexample: when every whole-strategy attempt fails with a
message classified Overloaded, the orchestrator sleeps (attempt+1)*60
seconds and then retries the SAME strategy — handler.next_strategy() is
never called (the trace contains no advance event and all three attempts run
Full Analysis), contradicting the claim that advance() is called before the
next attempt in every escalation case. -/
theorem c1_overloaded_never_advances :
    create_crewai_setup (fun _ _ => .exc ("503 overloaded")) 3
      = (.pyStr ("❌ Service is overloaded and all retry attempts failed. Please try again in 10-15 minutes."),
         [.ran ("Full Analysis") 0, .waited 60,
          .ran ("Full Analysis") 1, .waited 120,
          .ran ("Full Analysis") 2])
    ∧ Event.advanced ∉
        (create_crewai_setup (fun _ _ => .exc ("503 overloaded")) 3).2 := by
  decide

/-- C1 (amended): one non-final iteration of the create_crewai_setup loop
behaves as follows.  A failure classified Overloaded sleeps
(attempt+1)*60 seconds and retries the same strategy index without
advancing; a failure classified quota/rate-limited sleeps (attempt+1)*90
seconds and retries the same strategy index without advancing; a
TimeoutError advances to the next strategy with no extra wait; any other
failure advances to the next strategy with no extra wait.  advance() is thus
called only in the timeout and unclassified-error cases, never in the
Overloaded or quota cases. -/
theorem c1_escalation_step (behavior : Nat → Nat → StratOutcome)
    (maxAttempts fuel idx attempt : Nat) (strat : Strategy) (m : String)
    (hstrat : strategies.get? idx = some strat)
    (hlt : attempt < maxAttempts - 1) :
    (behavior idx attempt = .exc m → overloaded_check m = true →
      setupGo behavior maxAttempts (fuel + 1) idx attempt
        = ((setupGo behavior maxAttempts fuel idx (attempt + 1)).1,
           .ran strat.name attempt :: .waited ((attempt + 1) * 60)
             :: (setupGo behavior maxAttempts fuel idx (attempt + 1)).2))
    ∧ (behavior idx attempt = .exc m → overloaded_check m = false →
        quota_check m = true →
      setupGo behavior maxAttempts (fuel + 1) idx attempt
        = ((setupGo behavior maxAttempts fuel idx (attempt + 1)).1,
           .ran strat.name attempt :: .waited ((attempt + 1) * 90)
             :: (setupGo behavior maxAttempts fuel idx (attempt + 1)).2))
    ∧ (behavior idx attempt = .timeout →
      setupGo behavior maxAttempts (fuel + 1) idx attempt
        = ((setupGo behavior maxAttempts fuel (idx + 1) (attempt + 1)).1,
           .ran strat.name attempt :: .advanced
             :: (setupGo behavior maxAttempts fuel (idx + 1) (attempt + 1)).2))
    ∧ (behavior idx attempt = .exc m → overloaded_check m = false →
        quota_check m = false →
      setupGo behavior maxAttempts (fuel + 1) idx attempt
        = ((setupGo behavior maxAttempts fuel (idx + 1) (attempt + 1)).1,
           .ran strat.name attempt :: .advanced
             :: (setupGo behavior maxAttempts fuel (idx + 1) (attempt + 1)).2)) := by
  refine ⟨fun hb ho => ?_, fun hb ho hq => ?_, fun hb => ?_, fun hb ho hq => ?_⟩
  · simp only [setupGo, hstrat, hb, ho, if_true, if_pos hlt]
  · simp only [setupGo, hstrat, hb, ho, hq, Bool.false_eq_true, if_false,
      if_true, if_pos hlt]
  · simp only [setupGo, hstrat, hb, if_pos hlt]
  · simp only [setupGo, hstrat, hb, ho, hq, Bool.false_eq_true, if_false,
      if_pos hlt]

/-- Closed witness for the amended C1 theorem, applied in its Overloaded
case on the first loop iteration with the Full Analysis strategy. -/
theorem c1_escalation_step_witness :
    setupGo (fun _ _ => .exc ("503 overloaded")) 3 3 0 0
      = ((setupGo (fun _ _ => .exc ("503 overloaded")) 3 2 0 1).1,
         .ran ("Full Analysis") 0 :: .waited 60
           :: (setupGo (fun _ _ => .exc ("503 overloaded")) 3 2 0 1).2) :=
  (c1_escalation_step (fun _ _ => .exc ("503 overloaded")) 3 2 0 0
    ⟨"Full Analysis", 600, "full"⟩ ("503 overloaded")
    (by decide) (by decide)).1 rfl (by decide)

/-- Helper for C10: the failure marker stays a prefix after appending an
arbitrary error message to the ❌-prefixed literal of src/crew.py line 161. -/
theorem fail_marker_prefix_append (m : String) :
    ("❌".toList).isPrefixOf (("❌ Analysis failed with error: " ++ m).toList)
      = true := by
  rw [List.isPrefixOf_iff_prefix]
  have h1 : ("❌".toList) <+: ("❌ Analysis failed with error: ").toList := by
    decide
  have h2 : ("❌ Analysis failed with error: ").toList
      <+: ("❌ Analysis failed with error: " ++ m).toList := by
    show ("❌ Analysis failed with error: ").data
      <+: ("❌ Analysis failed with error: " ++ m).data
    rw [String.data_append]
    exact List.prefix_append _ _
  exact h1.trans h2

/-- Embedding of the failure check of main (src/crew.py line 273):
`isinstance(results, str) and results.startswith("❌")`.  Python
startswith is a character-sequence prefix test. -/
def main_detects_failure : PyVal → Bool
  | .pyStr s => ("❌".toList).isPrefixOf s.toList
  | .pyOther => false

/-- Helper for C10: when the strategy-attempt behaviour never succeeds,
every value the create_crewai_setup loop can return is a string that begins
with the character ❌. -/
theorem setupGo_no_success_fail_str (behavior : Nat → Nat → StratOutcome)
    (maxAttempts : Nat)
    (hnos : ∀ i a v, behavior i a ≠ .success v) :
    ∀ fuel idx attempt, ∃ s,
      (setupGo behavior maxAttempts fuel idx attempt).1 = .pyStr s
      ∧ ("❌".toList).isPrefixOf s.toList = true := by
  intro fuel
  induction fuel with
  | zero =>
    intro idx attempt
    exact ⟨_, rfl, by decide⟩
  | succ fuel ih =>
    intro idx attempt
    rw [setupGo]
    match hg : strategies.get? idx with
    | none => exact ⟨_, rfl, by decide⟩
    | some strat =>
      match hb : behavior idx attempt with
      | .success v => exact absurd hb (hnos idx attempt v)
      | .timeout =>
        dsimp only
        split
        · exact ih (idx + 1) (attempt + 1)
        · exact ⟨_, rfl, by decide⟩
      | .exc m =>
        dsimp only
        split
        · split
          · exact ih idx (attempt + 1)
          · exact ⟨_, rfl, by decide⟩
        · split
          · split
            · exact ih idx (attempt + 1)
            · exact ⟨_, rfl, by decide⟩
          · split
            · exact ih (idx + 1) (attempt + 1)
            · exact ⟨_, rfl, fail_marker_prefix_append m⟩

/-- C10: failure of create_crewai_setup is signalled in-band.  When the
strategy attempts never succeed, the returned value is a string beginning
with the character ❌ and main classifies the run as failed; main's
classification is exactly the test "is a string whose character sequence
starts with ❌"; and a genuine successful crew result that happens to be
such a string is classified as failed all the same — failure and such a
result are indistinguishable to the caller. -/
theorem c10_in_band_failure (behavior : Nat → Nat → StratOutcome)
    (maxAttempts : Nat) (hnos : ∀ i a v, behavior i a ≠ .success v) :
    (∃ s, (create_crewai_setup behavior maxAttempts).1 = .pyStr s
        ∧ ("❌".toList).isPrefixOf s.toList = true)
    ∧ main_detects_failure (create_crewai_setup behavior maxAttempts).1 = true
    ∧ (∀ v : PyVal, main_detects_failure v = true ↔
        ∃ s, v = .pyStr s ∧ ("❌".toList).isPrefixOf s.toList = true)
    ∧ ((create_crewai_setup (fun _ _ => .success (.pyStr ("❌ spurious result")))
          3).1 = .pyStr ("❌ spurious result")
        ∧ main_detects_failure (.pyStr ("❌ spurious result")) = true) := by
  obtain ⟨s, hs, hp⟩ := setupGo_no_success_fail_str behavior maxAttempts hnos
    maxAttempts 0 0
  refine ⟨⟨s, hs, hp⟩, ?_, ?_, by decide⟩
  · unfold create_crewai_setup
    rw [hs]
    simpa [main_detects_failure] using hp
  · intro v
    cases v with
    | pyStr t =>
      simp [main_detects_failure]
    | pyOther =>
      simp [main_detects_failure]

/-- Closed witness for the C10 theorem, applied to a behaviour that always
fails with an unclassified error. -/
theorem c10_in_band_failure_witness :
    main_detects_failure
      (create_crewai_setup (fun _ _ => .exc ("boom")) 3).1 = true :=
  (c10_in_band_failure (fun _ _ => .exc ("boom")) 3
    (fun _ _ _ h => StratOutcome.noConfusion h)).2.1

/-! ## src/tasks.py and src/agents.py: task sets and tool access -/

/-- Modelled from the spec: the remote search tool.  The sources import
`search_tool` from a `tools` module that is not among the analysed files;
spec section 6 treats it as an external collaborator, "consumed only by
tasks whose usesRemoteTools is true".  Only its identity matters here. -/
inductive Tool where
  | search_tool
deriving DecidableEq

/-- An agent as constructed in src/agents.py (lines 231-268).  The goal and
backstory prompt texts are omitted: no claim depends on them.  -/
structure CrewAgent where
  role : String
  tools : List Tool
  maxExecutionTime : Nat
deriving DecidableEq

/-- Agent market_research_analyst of src/agents.py lines 231-242. -/
def market_research_analyst : CrewAgent :=
  ⟨"Market Research Analyst", [Tool.search_tool], 240⟩

/-- Agent technology_expert of src/agents.py lines 244-255. -/
def technology_expert : CrewAgent :=
  ⟨"Technology Expert", [Tool.search_tool], 240⟩

/-- Agent business_consultant of src/agents.py lines 257-268. -/
def business_consultant : CrewAgent :=
  ⟨"Business Consultant", [Tool.search_tool], 240⟩

/-- A task as constructed in src/tasks.py.  `context` lists the indices
(within the returned task list) of the tasks whose outputs feed this one;
`tools` is the task's own declared tool list. -/
structure CrewTask where
  description : String
  agent : CrewAgent
  expectedOutput : String
  context : List Nat
  tools : List Tool
deriving DecidableEq

/-- Embedding of create_tasks (src/tasks.py lines 5-63).  The multi-line
prompt texts are condensed to their first sentence; the fields the claims
depend on — agents, context dependencies and declared tools — are exact:
every regular task declares `tools=[search_tool]` and task 3 depends on
tasks 1 and 2. -/
def create_tasks (product_name : String) : List CrewTask :=
  [⟨"Conduct a rapid market analysis for " ++ product_name ++ ".",
    market_research_analyst,
    "5-point market analysis covering target customers, market size, competitors, marketing channel, and pricing (max 300 words).",
    [], [Tool.search_tool]⟩,
   ⟨"Provide a basic technical assessment for " ++ product_name ++ ".",
    technology_expert,
    "4-point technical assessment covering manufacturing, equipment, quality control, and challenges (max 250 words).",
    [], [Tool.search_tool]⟩,
   ⟨"Create a focused business strategy for " ++ product_name
      ++ " using the previous analyses.",
    business_consultant,
    "6-point business strategy with model, revenue, timeline, metrics, risks, and funding (max 350 words).",
    [0, 1], [Tool.search_tool]⟩]

/-- Embedding of create_emergency_tasks (src/tasks.py lines 65-95), with
the same conventions as create_tasks: every emergency task declares
`tools=[]` ("No tools to avoid timeouts") and task 3 depends on tasks 1
and 2. -/
def create_emergency_tasks (product_name : String) : List CrewTask :=
  [⟨"Quick analysis: Who would buy " ++ product_name ++ " and why? Answer in exactly 3 sentences. No research needed if obvious.",
    market_research_analyst, "3-sentence customer analysis.", [], []⟩,
   ⟨"Simple question: How difficult is it to make " ++ product_name ++ "? Answer in exactly 2 sentences.",
    technology_expert, "2-sentence technical difficulty assessment.", [], []⟩,
   ⟨"Basic business plan: How would you sell " ++ product_name ++ "? Answer in exactly 4 sentences covering: how to sell, pricing, timeline, main challenge.",
    business_consultant, "4-sentence basic business plan.", [0, 1], []⟩]

/-- Modelled from the spec: whether a pipeline run over a task list can
invoke the remote search tool.  Spec section 4.5: "if the task declares
remote-tool use, routes the call through RetryingCaller; otherwise executes
deterministically"; spec section 6: the search tool is "consumed only by
tasks whose usesRemoteTools is true".  A run can therefore invoke the search
tool exactly when some task's declared tool list contains it. -/
def run_invokes_search_tool (tasks : List CrewTask) : Bool :=
  tasks.any (fun t => t.tools.contains Tool.search_tool)

/-- C4: every task in the Emergency task set declares an empty tool list, so
an Emergency-tier pipeline run can never invoke the remote search tool —
while every regular (Full/Quick) task declares the search tool. -/
theorem c4_emergency_no_search_tool (product_name : String) :
    ((create_emergency_tasks product_name).all
      (fun t => t.tools.isEmpty)) = true
    ∧ run_invokes_search_tool (create_emergency_tasks product_name) = false
    ∧ ((create_tasks product_name).all
      (fun t => t.tools.contains Tool.search_tool)) = true := by
  refine ⟨?_, ?_, ?_⟩ <;>
    simp [create_emergency_tasks, create_tasks, run_invokes_search_tool,
      List.all_cons, List.any_cons]

/-- Closed witness for the C4 theorem at a concrete product name. -/
theorem c4_emergency_no_search_tool_witness :
    run_invokes_search_tool (create_emergency_tasks ("Smart Mug")) = false :=
  (c4_emergency_no_search_tool ("Smart Mug")).2.1
